import Mathlib

/-!
# Cache-warmer coordinator: a shallow embedding

This file embeds the cache-warmer core of the repository — the epics in
`packages/core/bootstrap/src/lib/cache-warmer/epics.ts` together with the
selector in `selectors.ts` — as executable Lean definitions, and proves
properties of the embedded code.

Modelling conventions:
* JavaScript objects that the code reads field-by-field become structures with
  `Option` fields (`none` is `undefined`).
* Fallible evaluations (property access on `undefined`, the explicit `throw`)
  return `Except String _`.
* An executor function value is modelled by `ExecuteFn`: its identity (`ref`),
  its `toString()` text (`text`) and whether its promise resolves (`succeeds`).
* Timed stream behaviour (rxjs `timer`, `delay`, `race`, `takeUntil`) is
  modelled by its event-time semantics over explicit lists of arrival times or
  observed actions.
-/

namespace CacheWarmer

/-- Registry keys (fingerprints) are strings. -/
abbrev Key := String

/-- A JavaScript primitive as it appears in request data fields: a string, or
`undefined` (what a JS property read yields when the property is absent). -/
inductive JPrim
  | str (s : String)
  | undef
deriving DecidableEq, Repr

/-- A JavaScript value stored under a field of a request's `data` object:
either a primitive or an array of primitives (the batchable collections). -/
inductive JVal
  | prim (q : JPrim)
  | arr (xs : List JPrim)
deriving DecidableEq, Repr

/-- A request's `data` object: named fields in insertion order. -/
abbrev ReqData := List (String × JVal)

/-- JS property read `data[k]`: the stored value, or `undefined` when the
field is absent. -/
def lookupField (d : ReqData) (k : String) : JVal :=
  match d.find? (fun kv => kv.1 == k) with
  | some kv => kv.2
  | none => JVal.prim JPrim.undef

/-- JS spread-update `\x7b...data, [k]: v\x7d`: overwrite the field in place when it
exists, otherwise append it. -/
def setField (d : ReqData) (k : String) (v : JVal) : ReqData :=
  if (d.find? (fun kv => kv.1 == k)).isSome then
    d.map (fun kv => if kv.1 == k then (k, v) else kv)
  else d ++ [(k, v)]

/-- `Array.isArray` on a field value. -/
def JVal.isArr : JVal → Bool
  | .arr _ => true
  | .prim _ => false

/-- `[v]` for a non-array value `v` (used by `createParentSubscriptionAction`
to make the origin batch-shaped); arrays are left unchanged. -/
def wrapInArr : JVal → JVal
  | .prim q => .arr [q]
  | .arr xs => .arr xs

/-- JS `v.length > 0`: arrays and strings carry a numeric `length`, while
reading `length` on `undefined` raises a TypeError. -/
def jsLengthPos : JVal → Except String Bool
  | .arr xs => .ok (decide (xs.length > 0))
  | .prim (.str s) => .ok (decide (s.length > 0))
  | .prim .undef => .error "TypeError"

/-- Model of an executor function value (`executeFn`). `ref` is the function's
identity — two values are the same JS function exactly when `ref` agrees;
`text` is what `Function.prototype.toString()` returns — distinct functions can
share it; `succeeds` records whether the warm-up invocation's promise resolves
(`true`) or rejects (`false`). -/
structure ExecuteFn where
  ref : Nat
  text : String
  succeeds : Bool := true
deriving DecidableEq, Repr

/-- The `debug` annotation of an adapter result. -/
structure ResultDebug where
  batchKey : Option String := none
deriving DecidableEq, Repr

/-- The `data` part of an adapter result: for a batched call, `results` is the
ordered collection of `[subrequest, index]` pairs. -/
structure ResultData where
  results : Option (List (ReqData × Nat)) := none
deriving DecidableEq, Repr

/-- An adapter result as inspected by the cache warmer. -/
structure WarmupResult where
  debug : Option ResultDebug := none
  data : Option ResultData := none
  maxAge : Option Int := none
deriving DecidableEq, Repr

/-- Payload of a `warmupExecute` action: the originating request's `data`, the
executor to re-invoke, and the upstream result that triggered warming. -/
structure WarmupExecutePayload where
  executeFn : ExecuteFn
  data : ReqData := []
  result : Option WarmupResult := none
deriving DecidableEq, Repr

/-- `payload.result?.debug?.batchKey`. -/
def WarmupExecutePayload.debugBatchKey (p : WarmupExecutePayload) : Option String :=
  (p.result.bind (·.debug)).bind (·.batchKey)

/-- `payload.result?.data?.results`. -/
def WarmupExecutePayload.dataResults (p : WarmupExecutePayload) :
    Option (List (ReqData × Nat)) :=
  (p.result.bind (·.data)).bind (·.results)

/-- `payload?.result?.maxAge`. -/
def WarmupExecutePayload.resultMaxAge (p : WarmupExecutePayload) : Option Int :=
  p.result.bind (·.maxAge)

/-- Payload of a `warmupSubscribed` action: an execute payload extended with
the optional `parent`, `batchKey`, `childLastSeenById` and explicit `key`
fields added by the establisher. -/
structure WarmupSubscribedPayload extends WarmupExecutePayload where
  parent : Option Key := none
  batchKey : Option String := none
  childLastSeenById : Option (List (Key × Nat)) := none
  key : Option Key := none
deriving DecidableEq, Repr

/-- The cache-warmer actions that travel on the event bus. -/
inductive Action
  | warmupSubscribed (payload : WarmupSubscribedPayload)
  | warmupUnsubscribed (key : Key)
  | warmupJoinGroup (parent : Key) (childLastSeenById : List (Key × Nat)) (batchKey : String)
  | warmupLeaveGroup (parent : Key) (batchKey : String)
  | warmupRequested (key : Key)
  | warmupFulfilled (key : Key)
  | warmupFailed (key : Key)
  | warmupStopped (key : Key)
  | warmupSubscriptionTimeoutReset (key : Key)
deriving DecidableEq, Repr

/-- A registry entry (`state.cacheWarmer.subscriptions[key]`). -/
structure SubscriptionState where
  executeFn : ExecuteFn
  origin : ReqData := []
  parent : Option Key := none
  batchKey : Option String := none
  childLastSeenById : Option (List (Key × Nat)) := none
  isDuplicate : Bool := false
deriving DecidableEq, Repr

/-- The subscription registry, in insertion order (JS object entries). -/
abbrev Registry := List (Key × SubscriptionState)

/-- Registry read `subscriptions[key]`. -/
def rlookup (r : Registry) (k : Key) : Option SubscriptionState :=
  (r.find? (fun kv => kv.1 == k)).map (·.2)

/-- Replace the entry stored at a key (no-op on other keys). -/
def updateEntry (r : Registry) (k : Key) (e : SubscriptionState) : Registry :=
  r.map (fun kv => if kv.1 == k then (k, e) else kv)

/-- Modelled from the spec: the recognized configuration options (§6); the
cache-warmer `config.ts` is not under src/. -/
structure Config where
  warmupInterval : Nat
  unhealthyThreshold : Nat
  subscriptionTTL : Nat
deriving DecidableEq, Repr

/-- Canonical text of a primitive, for the modelled fingerprint. -/
def JPrim.serialize : JPrim → String
  | .str s => "s:" ++ s
  | .undef => "u"

/-- Canonical text of a field value, for the modelled fingerprint. -/
def JVal.serialize : JVal → String
  | .prim q => q.serialize
  | .arr xs => "[" ++ String.intercalate "," (xs.map JPrim.serialize) ++ "]"

/-- Canonical text of a `data` object, for the modelled fingerprint. -/
def serializeData (d : ReqData) : String :=
  String.intercalate ";" (d.map (fun kv => kv.1 ++ "=" ++ kv.2.serialize))

/-- Modelled from the spec: `getSubscriptionKey` lives in `util.ts`, which is
not under src/; the spec describes it as a fingerprint that "derives a stable
key from a request's semantic content" (§2, §6). Modelled as a canonical
serialization of the payload's request fields. -/
def getSubscriptionKey (p : WarmupSubscribedPayload) : Key :=
  "key:" ++ serializeData p.data ++ "&" ++ p.batchKey.getD ""

/-- `payload.key || getSubscriptionKey(payload)` (from `warmupSubscriber`); an
empty string is falsy in JS and falls back to the fingerprint. -/
def effectiveKey (p : WarmupSubscribedPayload) : Key :=
  match p.key with
  | some k => if k = "" then getSubscriptionKey p else k
  | none => getSubscriptionKey p

/-- The result type of `selectBatchWarmerSubscriptionKey` (selectors.ts). -/
structure BatchWarmerSubscriptionKey where
  existingKey : Bool
  key : Key
deriving DecidableEq, Repr

/-- `omit(payload, [a data literal])` as passed to the key function by the
selector: the payload with its `data` removed (and no subscription fields). -/
def omitData (p : WarmupExecutePayload) : WarmupSubscribedPayload :=
  { toWarmupExecutePayload := { p with data := [] } }

/-- Embeds `selectBatchWarmerSubscriptionKey` (selectors.ts): scan the registry
entries in order for one that has a `childLastSeenById` object (any JS object,
even empty, is truthy) and whose executor has the same source text — the code
compares `executeFn.toString()`, not function identity. Reuse the first such
entry's key; otherwise derive a fresh key from the payload with `data`
omitted. -/
def selectBatchWarmerSubscriptionKey (subs : Registry) (p : WarmupExecutePayload) :
    BatchWarmerSubscriptionKey :=
  match subs.find? (fun e =>
      e.2.childLastSeenById.isSome && e.2.executeFn.text == p.executeFn.text) with
  | some e => ⟨true, e.1⟩
  | none => ⟨false, getSubscriptionKey (omitData p)⟩

/-- Embeds the payloads built by `createChildSubscriptionActions` (epics.ts):
`\x7b...payload, parent, batchKey\x7d`, and when the result carries `data.results`
(any array — even an empty one — is truthy in JS), one child per sub-result
with `data` replaced by the sub-result's own request; otherwise a single child
with the payload's own data. -/
def createChildSubscriptionPayloads (p : WarmupExecutePayload) (parentKey : Key)
    (batchKey : Option String) : List WarmupSubscribedPayload :=
  let base : WarmupSubscribedPayload :=
    { toWarmupExecutePayload := p, parent := some parentKey, batchKey := batchKey }
  match p.dataResults with
  | some results =>
      results.map (fun r => { base with toWarmupExecutePayload := { p with data := r.1 } })
  | none => [base]

/-- Embeds `createParentSubscriptionAction` (epics.ts): join an existing batch
warmer group by its key, or start a new parent subscription keyed by the
synthesized key; when starting one and the batch field of the request is not
already an array, wrap it in a one-element array so the origin is
batch-shaped. -/
def createParentSubscriptionAction (batchKey : String) (sel : BatchWarmerSubscriptionKey)
    (childLastSeenById : List (Key × Nat)) (p : WarmupExecutePayload) : Action :=
  if sel.existingKey then
    Action.warmupJoinGroup sel.key childLastSeenById batchKey
  else
    let sp : WarmupSubscribedPayload :=
      { toWarmupExecutePayload := p
        childLastSeenById := some childLastSeenById
        batchKey := some batchKey
        key := some sel.key }
    if (lookupField p.data batchKey).isArr then
      Action.warmupSubscribed sp
    else
      Action.warmupSubscribed
        { sp with toWarmupExecutePayload :=
            { p with data := setField p.data batchKey (wrapInArr (lookupField p.data batchKey)) } }

/-- Embeds the partition predicate of `executeHandler`:
`(val) => !!val.payload.result?.debug?.batchKey` — truthy means a present,
non-empty batch key string. -/
def batchPartitionPred (p : WarmupExecutePayload) : Bool :=
  match p.debugBatchKey with
  | some s => s != ""
  | none => false

/-- Embeds the `subscribeBatch$` branch of `executeHandler` (epics.ts): resolve
the group key with the selector, re-read `payload.result?.debug?.batchKey` and
throw `No batch key found` when it is falsy, then emit the child subscribe
actions followed by the one parent action, whose `childLastSeenById` maps each
child's subscription key to the current time. -/
def subscribeBatchStep (subs : Registry) (p : WarmupExecutePayload) (now : Nat) :
    Except String (List Action) :=
  let sel := selectBatchWarmerSubscriptionKey subs p
  match p.debugBatchKey with
  | none => Except.error "No batch key found, state invariant violated"
  | some bk =>
    if bk = "" then Except.error "No batch key found, state invariant violated"
    else
      let children := createChildSubscriptionPayloads p sel.key (some bk)
      let childLastSeenById := children.map (fun c => (getSubscriptionKey c, now))
      Except.ok (children.map Action.warmupSubscribed ++
        [createParentSubscriptionAction bk sel childLastSeenById p])

/-- Embeds `executeHandler` (epics.ts): `warmupExecute` actions are partitioned
on the batch-key predicate; batch events go through the batch branch, the rest
map to a single `warmupSubscribed` carrying the same payload. -/
def executeHandlerStep (subs : Registry) (p : WarmupExecutePayload) (now : Nat) :
    Except String (List Action) :=
  if batchPartitionPred p then subscribeBatchStep subs p now
  else Except.ok [Action.warmupSubscribed { toWarmupExecutePayload := p }]

/-- Embeds the `takeUntil` condition of the warm-up timer in `warmupSubscriber`
(epics.ts). The source filter is `warmupUnsubscribed.match || warmupStopped.match`
followed by a key comparison; `||` there is applied to the two function VALUES,
and since the first is truthy the whole expression evaluates to
`warmupUnsubscribed.match` alone — `warmupStopped` actions never pass this
filter. -/
def warmupTimerCancels (key : Key) (a : Action) : Bool :=
  match a with
  | .warmupUnsubscribed k => k == key
  | _ => false

/-- The warm-up timer for a key keeps emitting `warmupRequested(key)` exactly
while no action observed on the bus passes its `takeUntil` filter. -/
def warmupTimerAlive (key : Key) (observed : List Action) : Bool :=
  !(observed.any (warmupTimerCancels key))

/-- Embeds `timer(0, payload?.result?.maxAge || config.warmupInterval)` from
`warmupSubscriber`: JS `||` picks `maxAge` whenever it is a truthy number
(any non-zero value, including a negative one), else the configured default. -/
def warmupTimerPeriod (p : WarmupSubscribedPayload) (cfg : Config) : Int :=
  match p.toWarmupExecutePayload.resultMaxAge with
  | some m => if m = 0 then (cfg.warmupInterval : Int) else m
  | none => (cfg.warmupInterval : Int)

/-- Emission times of `timer(0, period)`: the n-th `warmupRequested` fires at
`n * period`, the rxjs scheduler clamping a negative period to zero. The first
emission is immediate. -/
def warmupTimerTickTime (period : Int) (n : Nat) : Int :=
  n * max period 0

/-- Embeds the filter of `warmupSubscriber` (epics.ts): a payload with a
`parent` registers but never warms; otherwise the subscribe passes exactly when
`!state.cacheWarmer.subscriptions[key]?.isDuplicate` — an absent entry or an
entry not flagged as a duplicate. -/
def warmupSubscriberFilter (subs : Registry) (p : WarmupSubscribedPayload) : Bool :=
  if p.parent.isSome then false
  else !(((rlookup subs (effectiveKey p)).map (·.isDuplicate)).getD false)

/-- The registry entry created for a first-time subscribe payload. -/
def subscribedEntry (p : WarmupSubscribedPayload) : SubscriptionState :=
  { executeFn := p.executeFn
    origin := p.data
    parent := p.parent
    batchKey := p.batchKey
    childLastSeenById := p.childLastSeenById }

/-- Modelled from the spec: the registry reducer applying a `warmupSubscribed`
action (the reducer module is not under src/). Per §4.4 "subscribe(payload):
upsert entry at key=payload.key ?? fingerprint(payload); if entry exists, merge
(heartbeat) rather than replace identity fields", and per §3 `isDuplicate` is
"true if this entry's registration was deduplicated against an existing one".
In redux the reducer runs before the epics observe the action. -/
def applySubscribed (subs : Registry) (p : WarmupSubscribedPayload) : Registry :=
  match rlookup subs (effectiveKey p) with
  | some e => updateEntry subs (effectiveKey p) { e with isDuplicate := true }
  | none => (effectiveKey p, subscribedEntry p) :: subs

/-- Embeds `warmupRequestHandler` (epics.ts): read
`state.cacheWarmer.subscriptions[key]` WITHOUT a presence check, then call
`requestData.executeFn(...)`; when the entry is absent the property access on
`undefined` raises a TypeError instead of dropping the event. On a present
entry the call maps to `warmupFulfilled(key)` and a rejection is caught as
`warmupFailed(key)`. -/
def warmupRequestHandlerStep (subs : Registry) (key : Key) : Except String Action :=
  match rlookup subs key with
  | none => Except.error "TypeError"
  | some sub =>
      Except.ok (if sub.executeFn.succeeds then Action.warmupFulfilled key
                 else Action.warmupFailed key)

/-- Embeds the filter of `unsubscribeOnFailure$` (epics.ts). The source
expression is `state.cacheWarmer.warmups[payload.key]?.errorCount ?? 0 >=
config.unhealthyThreshold`; by JS precedence `>=` binds tighter than `??`, so
it evaluates `errorCount ?? (0 >= unhealthyThreshold)`: with a recorded
`errorCount` the filter value is the count itself (truthy exactly when it is
non-zero), and only with no recorded entry is the comparison `0 >= threshold`
consulted. `warmups` maps each key to its consecutive-failure count. -/
def unsubscribeOnFailureFilter (warmups : List (Key × Nat)) (unhealthyThreshold : Nat)
    (key : Key) : Bool :=
  match (warmups.find? (fun kv => kv.1 == key)).map (·.2) with
  | some errorCount => errorCount != 0
  | none => decide (0 ≥ unhealthyThreshold)

/-- Helper for the TTL model: the last element of a list, with a default. -/
def lastD : List Nat → Nat → Nat
  | [], a => a
  | b :: l, _ => lastD l b

/-- Event-time semantics of `unsubscribeOnTimeout$` (epics.ts) for one
subscription key: given the arrival times of the `warmupSubscribed` events for
that key in order, every arrival starts `race(reset$, timeout$)` where `reset$`
fires on the next matching subscribe (`take(1)`) and `timeout$` emits
`warmupUnsubscribed(key)` after `subscriptionTTL`; the race is won by the
strictly earlier side. The result lists the times at which
`warmupUnsubscribed(key)` is emitted by this policy. -/
def unsubscribeOnTimeoutTimes (ttl : Nat) : List Nat → List Nat
  | [] => []
  | [t] => [t + ttl]
  | t :: t' :: rest =>
      (if t' < t + ttl then [] else [t + ttl]) ++ unsubscribeOnTimeoutTimes ttl (t' :: rest)

/-- Embeds `unsubscribeOnBatchEmpty$` (epics.ts): on a `warmupLeaveGroup`
action, evaluate `state.cacheWarmer.subscriptions[parent].origin[batchKey]
.length > 0` — a TypeError when the parent entry or the field is absent — and
map a passing event to `warmupUnsubscribed(parent)`; `.ok none` means the event
was filtered out with no emission. -/
def unsubscribeOnBatchEmptyStep (subs : Registry) (parent : Key) (batchKey : String) :
    Except String (Option Action) :=
  match rlookup subs parent with
  | none => Except.error "TypeError"
  | some sub =>
    match jsLengthPos (lookupField sub.origin batchKey) with
    | .error e => Except.error e
    | .ok b => Except.ok (if b then some (Action.warmupUnsubscribed parent) else none)

/-! ## Concrete inputs used by counterexamples and witnesses -/

/-- A registry group entry whose executor has source text shared with `ex4p`'s
executor but a different function identity. -/
def ex4entry : SubscriptionState :=
  { executeFn := { ref := 1, text := "(input) => call(input)" }
    childLastSeenById := some [] }

/-- A registry holding only the group entry `ex4entry`. -/
def ex4subs : Registry := [("G", ex4entry)]

/-- An execute payload whose executor is a different function value with the
same source text as `ex4entry`'s executor. -/
def ex4p : WarmupExecutePayload :=
  { executeFn := { ref := 2, text := "(input) => call(input)" }
    data := [("base", JVal.prim (JPrim.str "BTC"))] }

/-- A parent entry whose batch field still holds one item. -/
def ex5full : SubscriptionState :=
  { executeFn := { ref := 3, text := "batch" }
    origin := [("symbols", JVal.arr [JPrim.str "BTC"])] }

/-- A parent entry whose batch field has been emptied. -/
def ex5empty : SubscriptionState :=
  { executeFn := { ref := 3, text := "batch" }
    origin := [("symbols", JVal.arr [])] }

/-- A subscribe payload carrying an explicit key, for the heartbeat witness. -/
def ex7p : WarmupSubscribedPayload :=
  { toWarmupExecutePayload :=
      { executeFn := { ref := 4, text := "single" }
        data := [("from", JVal.prim (JPrim.str "ETH"))] }
    key := some "k1" }

/-- The registry entry already active under `ex7p`'s key. -/
def ex7entry : SubscriptionState :=
  { executeFn := { ref := 4, text := "single" }
    origin := [("from", JVal.prim (JPrim.str "ETH"))] }

/-- A subscribe payload whose result carries a negative `maxAge`. -/
def ex8p : WarmupSubscribedPayload :=
  { toWarmupExecutePayload :=
      { executeFn := { ref := 5, text := "neg" }
        result := some { maxAge := some (-7) } } }

/-- A sample configuration. -/
def cfgEx : Config := { warmupInterval := 3000, unhealthyThreshold := 3, subscriptionTTL := 60000 }

/-- First sub-request of the batched result `ex9p`. -/
def ex9req1 : ReqData := [("base", JVal.prim (JPrim.str "BTC"))]

/-- Second sub-request of the batched result `ex9p`. -/
def ex9req2 : ReqData := [("base", JVal.prim (JPrim.str "ETH"))]

/-- The `[subrequest, index]` collection of the batched result `ex9p`. -/
def ex9rs : List (ReqData × Nat) := [(ex9req1, 0), (ex9req2, 1)]

/-- An execute payload carrying a batched result with two sub-results. -/
def ex9p : WarmupExecutePayload :=
  { executeFn := { ref := 7, text := "batched" }
    data := [("symbols", JVal.arr [JPrim.str "BTC", JPrim.str "ETH"])]
    result := some { debug := some { batchKey := some "symbols" }
                     data := some { results := some ex9rs } } }

/-! ## Helper lemmas -/

/-- Rewriting the entry stored under a key that is present makes `rlookup`
return the new entry. -/
theorem rlookup_updateEntry (r : Registry) (k : Key) (e e0 : SubscriptionState)
    (h : rlookup r k = some e0) : rlookup (updateEntry r k e) k = some e := by
  induction r with
  | nil => simp [rlookup] at h
  | cons kv rest ih =>
      obtain ⟨k1, e1⟩ := kv
      by_cases hk : k1 = k
      · have hupd : updateEntry ((k1, e1) :: rest) k e = (k, e) :: updateEntry rest k e := by
          simp [updateEntry, hk]
        rw [hupd]
        unfold rlookup
        rw [List.find?_cons_of_pos _ (by simp)]
        rfl
      · have hupd : updateEntry ((k1, e1) :: rest) k e = (k1, e1) :: updateEntry rest k e := by
          simp [updateEntry, hk]
        have h' : rlookup rest k = some e0 := by
          unfold rlookup at h
          rw [List.find?_cons_of_neg _ (by simp [hk])] at h
          exact h
        rw [hupd]
        unfold rlookup
        rw [List.find?_cons_of_neg _ (by simp [hk])]
        exact ih h'

/-! ## Claim theorems -/

/-- Claim C1 (code bug witness): a `warmupStopped` event for the exact key does
NOT cancel the warm-up timer — the `takeUntil` filter
`warmupUnsubscribed.match || warmupStopped.match` evaluates to
`warmupUnsubscribed.match` alone — while a matching `warmupUnsubscribed` event
does cancel it. -/
theorem warmupStopped_does_not_cancel_timer :
    warmupTimerAlive "A" [Action.warmupStopped "A"] = true ∧
    warmupTimerAlive "A" [Action.warmupUnsubscribed "A"] = false :=
  ⟨rfl, rfl⟩

/-- Claim C2 (code bug witness): with a recorded `errorCount` of 1 and an
unhealthy threshold of 3, the `unsubscribeOnFailure$` filter already passes —
`errorCount ?? 0 >= config.unhealthyThreshold` evaluates the count itself —
even though the count has not reached the threshold. -/
theorem unsubscribeOnFailure_fires_below_threshold :
    unsubscribeOnFailureFilter [("A", 1)] 3 "A" = true ∧ ¬(1 ≥ 3) :=
  ⟨rfl, by decide⟩

/-- Claim C3 (code bug witness): a `warmupRequested` event for a key with no
registry entry makes the handler raise a TypeError (reading `executeFn` of
`undefined`) instead of dropping the event, and a `warmupLeaveGroup` event for
an unknown parent likewise raises instead of being ignored. -/
theorem missing_entry_raises_typeerror :
    warmupRequestHandlerStep [] "A" = Except.error "TypeError" ∧
    unsubscribeOnBatchEmptyStep [] "P" "symbols" = Except.error "TypeError" :=
  ⟨rfl, rfl⟩

/-- Claim C4 (counterexample): the registry entry `ex4entry` is reused for a
request whose executor is a DIFFERENT function value (different identity) with
the same source text, so reuse is not governed by reference identity. -/
theorem selectBatchKey_reuses_nonidentical_executor :
    (selectBatchWarmerSubscriptionKey ex4subs ex4p).existingKey = true ∧
    (selectBatchWarmerSubscriptionKey ex4subs ex4p).key = "G" ∧
    ex4p.executeFn ≠ ex4entry.executeFn :=
  ⟨rfl, rfl, by decide⟩

/-- Claim C4 (amended): a group entry (one with a `childLastSeenById` object)
is reused if and only if some such entry's executor has the same
`toString()` source text as the incoming request's executor; when none
matches, the synthesized key is the fingerprint of the payload with its data
omitted. -/
theorem selectBatchKey_text_equality (subs : Registry) (p : WarmupExecutePayload) :
    ((selectBatchWarmerSubscriptionKey subs p).existingKey = true ↔
      ∃ e ∈ subs, e.2.childLastSeenById.isSome = true ∧
        e.2.executeFn.text = p.executeFn.text) ∧
    ((selectBatchWarmerSubscriptionKey subs p).existingKey = false →
      (selectBatchWarmerSubscriptionKey subs p).key = getSubscriptionKey (omitData p)) := by
  cases hf : subs.find? (fun e =>
      e.2.childLastSeenById.isSome && e.2.executeFn.text == p.executeFn.text) with
  | none =>
      constructor
      · constructor
        · intro hex
          exfalso
          simp [selectBatchWarmerSubscriptionKey, hf] at hex
        · rintro ⟨e, he, h1, h2⟩
          have hnone := List.find?_eq_none.mp hf e he
          simp [h1, h2] at hnone
      · intro _
        simp [selectBatchWarmerSubscriptionKey, hf]
  | some e =>
      constructor
      · simp only [selectBatchWarmerSubscriptionKey, hf]
        constructor
        · intro _
          have hp := List.find?_some hf
          have hm := List.mem_of_find?_eq_some hf
          simp only [Bool.and_eq_true, beq_iff_eq] at hp
          exact ⟨e, hm, hp.1, hp.2⟩
        · intro _
          trivial
      · simp [selectBatchWarmerSubscriptionKey, hf]

/-- Claim C4 witness: on the concrete registry and payload, the amended rule
yields reuse of the existing group key. -/
theorem selectBatchKey_text_equality_witness :
    (selectBatchWarmerSubscriptionKey ex4subs ex4p).existingKey = true :=
  (selectBatchKey_text_equality ex4subs ex4p).1.mpr
    ⟨("G", ex4entry), by simp [ex4subs], rfl, rfl⟩

/-- Claim C5 (code bug witness): on a `warmupLeaveGroup` for parent "P" with
batch field "symbols", the code emits `warmupUnsubscribed("P")` while the
remaining collection is NON-empty and emits nothing once it has been emptied —
the exact inverse of the stream's own name `unsubscribeOnBatchEmpty$`. -/
theorem unsubscribeOnBatchEmpty_condition_inverted :
    unsubscribeOnBatchEmptyStep [("P", ex5full)] "P" "symbols" =
      Except.ok (some (Action.warmupUnsubscribed "P")) ∧
    unsubscribeOnBatchEmptyStep [("P", ex5empty)] "P" "symbols" = Except.ok none :=
  ⟨rfl, rfl⟩

/-- Claim C6: for a key whose subscribe events arrive with every consecutive
gap smaller than `subscriptionTTL`, the TTL policy emits no unsubscribe while
the subscribes keep arriving and exactly one unsubscribe overall, at exactly
`subscriptionTTL` after the last subscribe. -/
theorem unsubscribeOnTimeout_exactly_once_after_last (ttl t : Nat) (ts : List Nat)
    (hgap : List.Chain (fun a b => b < a + ttl) t ts) :
    unsubscribeOnTimeoutTimes ttl (t :: ts) = [lastD ts t + ttl] := by
  induction ts generalizing t with
  | nil => rfl
  | cons t' rest ih =>
      rw [List.chain_cons] at hgap
      show (if t' < t + ttl then [] else [t + ttl]) ++
          unsubscribeOnTimeoutTimes ttl (t' :: rest) = [lastD rest t' + ttl]
      rw [if_pos hgap.1, List.nil_append, ih t' hgap.2]

/-- Claim C6 witness: subscribes at 0, 5 and 9 with a TTL of 10 produce a
single unsubscribe, at time 19. -/
theorem unsubscribeOnTimeout_exactly_once_after_last_witness :
    unsubscribeOnTimeoutTimes 10 [0, 5, 9] = [19] := by
  have h := unsubscribeOnTimeout_exactly_once_after_last 10 0 [5, 9]
    (List.Chain.cons (by omega) (List.Chain.cons (by omega) List.Chain.nil))
  simpa [lastD] using h

/-- Claim C7: a subscribe event for a key that already has an active registry
entry is a heartbeat only — after the reducer marks the entry as a duplicate,
the `warmupSubscriber` filter rejects the event so no new timer starts, and no
`warmupSubscribed` action ever passes an existing timer's cancel filter, so the
running timer's phase is untouched. -/
theorem duplicate_subscribe_starts_no_timer (subs : Registry) (p : WarmupSubscribedPayload)
    (e : SubscriptionState) (hexists : rlookup subs (effectiveKey p) = some e) :
    warmupSubscriberFilter (applySubscribed subs p) p = false ∧
    (∀ q : WarmupSubscribedPayload,
        warmupTimerCancels (effectiveKey p) (Action.warmupSubscribed q) = false) := by
  refine ⟨?_, fun q => rfl⟩
  simp only [applySubscribed, hexists]
  cases hp : p.parent with
  | some k => simp [warmupSubscriberFilter, hp]
  | none =>
      simp only [warmupSubscriberFilter, hp, Option.isSome_none, Bool.false_eq_true,
        if_neg, not_false_eq_true]
      rw [rlookup_updateEntry subs (effectiveKey p) _ e hexists]
      rfl

/-- Claim C7 witness: a duplicate subscribe for the already-registered key
"k1" does not pass the warm-up filter. -/
theorem duplicate_subscribe_starts_no_timer_witness :
    warmupSubscriberFilter (applySubscribed [("k1", ex7entry)] ex7p) ex7p = false :=
  (duplicate_subscribe_starts_no_timer [("k1", ex7entry)] ex7p ex7entry rfl).1

/-- Claim C8 (counterexample): with `maxAge = -7` on the result, the timer
period is `-7` — not the configured default — because JS `||` treats any
non-zero number, negative included, as truthy; the claim's "positive" guard is
not what the code implements. -/
theorem warmupTimerPeriod_negative_maxAge :
    warmupTimerPeriod ex8p cfgEx = -7 ∧ ¬(0 < (-7 : Int)) ∧
      warmupTimerPeriod ex8p cfgEx ≠ (cfgEx.warmupInterval : Int) :=
  ⟨rfl, by decide, by decide⟩

/-- Claim C8 (amended): the timer period equals the payload's `maxAge` whenever
it is present and non-zero (JS-truthy, so a negative value is used as-is), and
the configured `warmupInterval` when it is absent or zero; the first
`warmupRequested` tick fires immediately at time 0. -/
theorem warmupTimer_period_rule (p : WarmupSubscribedPayload) (cfg : Config) :
    (∀ m : Int, p.toWarmupExecutePayload.resultMaxAge = some m → m ≠ 0 →
        warmupTimerPeriod p cfg = m) ∧
    ((p.toWarmupExecutePayload.resultMaxAge = some 0 ∨
        p.toWarmupExecutePayload.resultMaxAge = none) →
        warmupTimerPeriod p cfg = (cfg.warmupInterval : Int)) ∧
    warmupTimerTickTime (warmupTimerPeriod p cfg) 0 = 0 := by
  refine ⟨?_, ?_, by simp [warmupTimerTickTime]⟩
  · intro m hm hne
    simp [warmupTimerPeriod, hm, hne]
  · rintro (hm | hm) <;> simp [warmupTimerPeriod, hm]

/-- Claim C8 witness: a concrete payload with `maxAge = -7` yields period -7
and an immediate first tick. -/
theorem warmupTimer_period_rule_witness :
    warmupTimerPeriod ex8p cfgEx = -7 ∧
    warmupTimerTickTime (warmupTimerPeriod ex8p cfgEx) 0 = 0 :=
  ⟨(warmupTimer_period_rule ex8p cfgEx).1 (-7) rfl (by decide),
   (warmupTimer_period_rule ex8p cfgEx).2.2⟩

/-- Claim C9: a batched execute event whose result holds N sub-results yields
exactly N child subscribe actions — each carrying the sub-result's own request
as `data`, `parent` set to the resolved group key and the shared batch key —
followed by exactly one parent action: a join-group when a matching group entry
exists, else a single parent subscribe keyed by the resolved key. -/
theorem executeHandler_batch_children_and_parent (subs : Registry) (p : WarmupExecutePayload)
    (now : Nat) (bk : String) (rs : List (ReqData × Nat))
    (hbk : p.debugBatchKey = some bk) (hbk' : bk ≠ "") (hrs : p.dataResults = some rs) :
    ∃ (children : List WarmupSubscribedPayload) (parentAct : Action),
      subscribeBatchStep subs p now =
        Except.ok (children.map Action.warmupSubscribed ++ [parentAct]) ∧
      children.length = rs.length ∧
      (∀ (i : Nat) (r : ReqData × Nat), rs[i]? = some r →
        ∃ sp, children[i]? = some sp ∧
          sp.parent = some (selectBatchWarmerSubscriptionKey subs p).key ∧
          sp.batchKey = some bk ∧ sp.data = r.1) ∧
      ((selectBatchWarmerSubscriptionKey subs p).existingKey = true →
        parentAct = Action.warmupJoinGroup (selectBatchWarmerSubscriptionKey subs p).key
          (children.map (fun c => (getSubscriptionKey c, now))) bk) ∧
      ((selectBatchWarmerSubscriptionKey subs p).existingKey = false →
        ∃ sp, parentAct = Action.warmupSubscribed sp ∧
          sp.key = some (selectBatchWarmerSubscriptionKey subs p).key) := by
  refine ⟨createChildSubscriptionPayloads p (selectBatchWarmerSubscriptionKey subs p).key
      (some bk),
    createParentSubscriptionAction bk (selectBatchWarmerSubscriptionKey subs p)
      ((createChildSubscriptionPayloads p (selectBatchWarmerSubscriptionKey subs p).key
          (some bk)).map (fun c => (getSubscriptionKey c, now))) p,
    ?_, ?_, ?_, ?_, ?_⟩
  · simp only [subscribeBatchStep, hbk]
    rw [if_neg hbk']
  · simp [createChildSubscriptionPayloads, hrs]
  · intro i r hir
    simp only [createChildSubscriptionPayloads, hrs]
    rw [List.getElem?_map, hir]
    exact ⟨_, rfl, rfl, rfl, rfl⟩
  · intro he
    simp [createParentSubscriptionAction, he]
  · intro he
    simp only [createParentSubscriptionAction, he, Bool.false_eq_true, if_false]
    by_cases ha : (lookupField p.data bk).isArr = true
    · rw [if_pos ha]
      exact ⟨_, rfl, rfl⟩
    · rw [if_neg ha]
      exact ⟨_, rfl, rfl⟩

/-- Claim C9 witness: the concrete batched payload with two sub-results
produces two child subscribes plus one parent action. -/
theorem executeHandler_batch_children_and_parent_witness :
    ∃ (children : List WarmupSubscribedPayload) (parentAct : Action),
      subscribeBatchStep [] ex9p 0 =
        Except.ok (children.map Action.warmupSubscribed ++ [parentAct]) ∧
      children.length = 2 := by
  obtain ⟨c, pa, h1, h2, -, -, -⟩ :=
    executeHandler_batch_children_and_parent [] ex9p 0 "symbols" ex9rs rfl
      (by decide) rfl
  exact ⟨c, pa, h1, by rw [h2]; rfl⟩

/-- Claim C10: every execute event routed to the batch branch by the partition
predicate `!!payload.result?.debug?.batchKey` passes the branch's own batch-key
recheck, so the `No batch key found` error is unreachable there. -/
theorem batch_branch_never_misses_batchKey (subs : Registry) (p : WarmupExecutePayload)
    (now : Nat) (h : batchPartitionPred p = true) :
    (subscribeBatchStep subs p now).isOk = true := by
  unfold batchPartitionPred at h
  cases hbk : p.debugBatchKey with
  | none => rw [hbk] at h; simp at h
  | some bk =>
      rw [hbk] at h
      have hne : bk ≠ "" := by simpa using h
      simp only [subscribeBatchStep, hbk]
      rw [if_neg hne]
      rfl

/-- Claim C10 witness: the concrete batched payload passes the partition
predicate and its batch branch completes without error. -/
theorem batch_branch_never_misses_batchKey_witness :
    batchPartitionPred ex9p = true ∧ (subscribeBatchStep [] ex9p 0).isOk = true :=
  ⟨rfl, batch_branch_never_misses_batchKey [] ex9p 0 rfl⟩

end CacheWarmer
